import Mathlib

/-!
Verification development for the Wells Fargo payment-matching subsystem
(`old_WF/payment_processor/WF/services/`): a shallow embedding of
`matching_service.py`, `confidence_service.py` and `payment_service.py`,
followed by theorems about the embedded code.

Modelling conventions:
* Python `float` scores are modelled as `ℚ` (all score arithmetic in the
  source is small finite sums, products and divisions of exact constants).
* Python dict records with optional/absent fields are modelled as
  structures of `Option Value` fields, with Python truthiness made
  explicit (`none`, `""` and `0` are falsy).
* `difflib.SequenceMatcher.ratio()` is modelled by its documented
  algorithm (recursive earliest-longest-common-substring block counting,
  `2*M/T`); the autojunk heuristic, which only activates for strings of
  200 characters or more, is not modelled.
* The repository collaborators (`WF/repositories/*`, absent from the
  source tree) and the persistence step `_apply_customer_payment` /
  `_apply_client_payment` (pure glue around those repositories) are
  external collaborators per the spec; they are parameters of the
  embedding (`Env`), as are the scorer entry points as invoked by
  `payment_service.py`, which in Python may raise (`Except Err`).
-/

/-- Python truthiness of the character class `\s` (ASCII fragment). -/
def isSpaceChar (c : Char) : Bool :=
  c = ' ' || c = '\t' || c = '\n' || c = '\r' || c = '\x0b' || c = '\x0c'

/-- Python regex class `\w` (ASCII fragment): alphanumeric or underscore. -/
def isWordChar (c : Char) : Bool :=
  c.isAlphanum || c = '_'

/-- Whitespace split dropping empty words, as Python `str.split()`. -/
def wsSplitAux : List Char → List Char → List (List Char)
  | [], acc => if acc = [] then [] else [acc.reverse]
  | c :: cs, acc =>
    if isSpaceChar c then
      (if acc = [] then wsSplitAux cs [] else acc.reverse :: wsSplitAux cs [])
    else wsSplitAux cs (c :: acc)

/-- Words of a character list, as Python `str.split()`. -/
def wsSplit (l : List Char) : List (List Char) :=
  wsSplitAux l []

/-- Honorific lead words stripped by `_normalize_string`, in source order. -/
def honorifics : List (List Char) :=
  [['m','r'], ['m','r','s'], ['m','s'], ['d','r'], ['p','r','o','f']]

/-- Does `pat` start the list `l`? (Python `str.startswith`.) -/
def startsWithL : List Char → List Char → Bool
  | [], _ => true
  | _ :: _, [] => false
  | p :: ps, c :: cs => p = c && startsWithL ps cs

/-- Strip the first matching honorific lead word, as the `for`/`break`
loop of `_normalize_string`. -/
def stripLead (l : List Char) : List Char :=
  match honorifics.find? (fun h => startsWithL (h ++ [' ']) l) with
  | some h => l.drop (h.length + 1)
  | none => l

/-- `MatchingService._normalize_string`: lowercase, strip an honorific
lead word, drop punctuation, collapse whitespace. -/
def normalize_string (s : String) : String :=
  if s = "" then "" else
  ⟨List.intercalate [' '] (wsSplit (((stripLead (s.toList.map Char.toLower))).filter
      (fun c => isWordChar c || isSpaceChar c)))⟩

/-- `MatchingService._normalize_account`: drop all characters outside
`[a-zA-Z0-9]`. -/
def normalize_account (s : String) : String :=
  if s = "" then "" else ⟨s.toList.filter Char.isAlphanum⟩

/-- Python substring test `xs in ys` on character lists. -/
def substrCheckL (xs ys : List Char) : Bool :=
  (List.range (ys.length + 1)).any (fun i => startsWithL xs (ys.drop i))

/-- Python substring test `s in t` on strings. -/
def substrCheck (s t : String) : Bool :=
  substrCheckL s.toList t.toList

/-- Length of the common lead run of two character lists. -/
def commonLeadLen : List Char → List Char → Nat
  | c :: cs, d :: ds => if c = d then commonLeadLen cs ds + 1 else 0
  | _, _ => 0

/-- Length of the common run of `a` and `b` starting at offsets `i`, `j`. -/
def matchLenAt (a b : List Char) (i j : Nat) : Nat :=
  commonLeadLen (a.drop i) (b.drop j)

/-- `SequenceMatcher.find_longest_match` over the whole strings (no junk):
the longest common contiguous run, earliest in `a` and then in `b`,
returned as (start in `a`, start in `b`, length). -/
def findBest (a b : List Char) : Nat × Nat × Nat :=
  (List.range a.length).foldl (fun acc i =>
    (List.range b.length).foldl (fun acc2 j =>
      if acc2.2.2 < matchLenAt a b i j then (i, j, matchLenAt a b i j) else acc2)
      acc) (0, 0, 0)

/-- Total size of the matching blocks of `SequenceMatcher`
(`get_matching_blocks` recursion), with fuel `a.length + b.length`,
which each recursive level strictly decreases. -/
def totalMatchesAux : Nat → List Char → List Char → Nat
  | 0, _, _ => 0
  | fuel + 1, a, b =>
    match findBest a b with
    | (i, j, k) =>
      if k = 0 then 0
      else
        k + totalMatchesAux fuel (a.take i) (b.take j)
          + totalMatchesAux fuel (a.drop (i + k)) (b.drop (j + k))

/-- Total size of the matching blocks of `SequenceMatcher`. -/
def totalMatches (a b : List Char) : Nat :=
  totalMatchesAux (a.length + b.length) a b

/-- `SequenceMatcher.ratio()`: `2*M/T`, and `1.0` when both strings are
empty (`difflib._calculate_ratio`). -/
def ratioQ (a b : List Char) : ℚ :=
  if a.length + b.length = 0 then 1
  else 2 * (totalMatches a b : ℚ) / ((a.length : ℚ) + (b.length : ℚ))

/-- `MatchingService._check_exact_match`. -/
def check_exact_match (t1 t2 : String) : ℚ :=
  if t1 = t2 then 1 else 0

/-- `MatchingService._check_contains`: containment scored by
`0.8 × (shorter length / longer length)`. -/
def check_contains (t1 t2 : String) : ℚ :=
  if substrCheck t1 t2 then 8/10 * ((t1.length : ℚ) / (t2.length : ℚ))
  else if substrCheck t2 t1 then 8/10 * ((t2.length : ℚ) / (t1.length : ℚ))
  else 0

/-- Deduplicated token set of a string (Python `set(text.split())`),
as a duplicate-free list. -/
def tokenSet (t : String) : List (List Char) :=
  (wsSplit t.toList).dedup

/-- `MatchingService._check_token_match`: `0.85 ×` Jaccard similarity of
the token sets. -/
def check_token_match (t1 t2 : String) : ℚ :=
  let tk1 := tokenSet t1
  let tk2 := tokenSet t2
  if tk1 = [] ∨ tk2 = [] then 0
  else
    let inter := (tk1.filter (fun w => w ∈ tk2)).length
    let uni := tk1.length + (tk2.filter (fun w => ¬ w ∈ tk1)).length
    if uni ≠ 0 then 85/100 * ((inter : ℚ) / (uni : ℚ)) else 0

/-- `MatchingService._check_sequence_match`: `0.9 ×` the
`SequenceMatcher` ratio, `0` on an empty input. -/
def check_sequence_match (t1 t2 : String) : ℚ :=
  if t1 = "" ∨ t2 = "" then 0
  else 9/10 * ratioQ t1.toList t2.toList

/-- `MatchingService.calculate_name_similarity`: normalize both names and
return the best of the four sub-scores (with the exact-equality shortcut). -/
def calculate_name_similarity (name1 name2 : String) : ℚ :=
  if name1 = "" ∨ name2 = "" then 0
  else
    let n1 := normalize_string name1
    let n2 := normalize_string name2
    if n1 = n2 then 1
    else
      max (max (check_exact_match n1 n2) (check_contains n1 n2))
        (max (check_token_match n1 n2) (check_sequence_match n1 n2))

/-- `MatchingService.calculate_account_similarity`: normalize both
accounts; exact match, then containment scored by `0.8 ×` length ratio
(when the longer length is positive), else the sequence sub-score
scaled by a further `0.8`. -/
def calculate_account_similarity (account1 account2 : String) : ℚ :=
  if account1 = "" ∨ account2 = "" then 0
  else
    let n1 := normalize_account account1
    let n2 := normalize_account account2
    if n1 = n2 then 1
    else if substrCheck n1 n2 || substrCheck n2 n1 then
      (if 0 < max n1.length n2.length then
        8/10 * ((min n1.length n2.length : ℚ) / (max n1.length n2.length : ℚ))
      else check_sequence_match n1 n2 * (8/10))
    else check_sequence_match n1 n2 * (8/10)

/-- A Python dict value as stored in the payment / customer / client
records: a string or an integer (ids from the database). -/
inductive Value where
  | vStr (s : String)
  | vInt (n : Int)
  deriving DecidableEq, Repr

/-- Python truthiness of an optional record field: `None`, `""` and `0`
are falsy. -/
def truthy : Option Value → Bool
  | none => false
  | some (Value.vStr s) => !(s = "")
  | some (Value.vInt n) => !(n = 0)

/-- Python `str(...)` coercion of a record field. -/
def valStr : Option Value → String
  | none => "None"
  | some (Value.vStr s) => s
  | some (Value.vInt n) => toString n

/-- Python `str.isdigit` (ASCII fragment): nonempty and all digits. -/
def isDigitStr (s : String) : Bool :=
  !(s.isEmpty) && s.toList.all Char.isDigit

/-- A WF payment record (`wf_payment` dict), restricted to the fields the
matching core reads. -/
structure WfPayment where
  ID : Option Value := none
  CustID : Option Value := none
  CustName : Option Value := none
  CompName : Option Value := none
  AccountNumber : Option Value := none
  FullSubAccount : Option Value := none
  ACCT : Option Value := none
  AcctNo : Option Value := none
  SubAccount : Option Value := none
  deriving DecidableEq, Repr

/-- A customer record, restricted to the fields the matching core reads. -/
structure Customer where
  customer_id : Option Value := none
  name : Option Value := none
  company : Option Value := none
  primary_client_id : Option Value := none
  deriving DecidableEq, Repr

/-- A client record, restricted to the fields the matching core reads. -/
structure Client where
  client_id : Option Value := none
  name : Option Value := none
  company : Option Value := none
  account_number : Option Value := none
  deriving DecidableEq, Repr

/-- `ConfidenceService.high_confidence_threshold` (0.60). -/
def high_confidence_threshold : ℚ := 60/100

/-- `ConfidenceService.medium_confidence_threshold` (0.50). -/
def medium_confidence_threshold : ℚ := 50/100

/-- `ConfidenceService.low_confidence_threshold` (0.40). -/
def low_confidence_threshold : ℚ := 40/100

/-- `ConfidenceService.is_high_confidence`. -/
def is_high_confidence (confidence : ℚ) : Bool :=
  decide (high_confidence_threshold ≤ confidence)

/-- `ConfidenceService.is_medium_confidence`. -/
def is_medium_confidence (confidence : ℚ) : Bool :=
  decide (medium_confidence_threshold ≤ confidence) &&
    decide (confidence < high_confidence_threshold)

/-- `ConfidenceService.is_low_confidence`. -/
def is_low_confidence (confidence : ℚ) : Bool :=
  decide (low_confidence_threshold ≤ confidence) &&
    decide (confidence < medium_confidence_threshold)

/-- `ConfidenceService._has_direct_id_match`: payment `CustID` equals the
customer id, or the customer's `primary_client_id` equals the payment
`AccountNumber` (string-compared after coercion, truthiness-guarded). -/
def has_direct_id_match (p : WfPayment) (c : Customer) : Bool :=
  (truthy p.CustID && truthy c.customer_id &&
    decide (valStr p.CustID = valStr c.customer_id)) ||
  (truthy c.primary_client_id && truthy p.AccountNumber &&
    decide (valStr c.primary_client_id = valStr p.AccountNumber))

/-- The ordered payment account fields checked by `ConfidenceService`
(five fields, `SubAccount` included). -/
def accountFieldsConf (p : WfPayment) : List (Option Value) :=
  [p.AccountNumber, p.FullSubAccount, p.ACCT, p.AcctNo, p.SubAccount]

/-- `ConfidenceService._has_direct_account_match`: the client's
`account_number` equals some truthy payment account field
(string-compared after coercion). -/
def has_direct_account_match (p : WfPayment) (cl : Client) : Bool :=
  truthy cl.account_number &&
    (accountFieldsConf p).any (fun f =>
      truthy f && decide (valStr f = valStr cl.account_number))

/-- `ConfidenceService._calculate_name_similarity`: 0.0 when either side
is missing, else the name similarity of `CustName` and the entity name. -/
def conf_name_similarity (p : WfPayment) (entityName : Option Value) : ℚ :=
  if truthy p.CustName && truthy entityName then
    calculate_name_similarity (valStr p.CustName) (valStr entityName)
  else 0

/-- `ConfidenceService._calculate_company_similarity`. -/
def conf_company_similarity (p : WfPayment) (entityCompany : Option Value) : ℚ :=
  if truthy p.CompName && truthy entityCompany then
    calculate_name_similarity (valStr p.CompName) (valStr entityCompany)
  else 0

/-- `ConfidenceService._calculate_account_similarity`: the entity account
is `primary_client_id` (customers) or else `account_number` (clients);
the score is the maximum account similarity over the truthy payment
account fields. -/
def conf_account_similarity (p : WfPayment)
    (primaryClientId accountNumber : Option Value) : ℚ :=
  if truthy primaryClientId then
    (accountFieldsConf p).foldl (fun m f =>
      if truthy f then
        max m (calculate_account_similarity (valStr f) (valStr primaryClientId))
      else m) 0
  else if truthy accountNumber then
    (accountFieldsConf p).foldl (fun m f =>
      if truthy f then
        max m (calculate_account_similarity (valStr f) (valStr accountNumber))
      else m) 0
  else 0

/-- `ConfidenceService.calculate_customer_match_confidence`: 1.0 on a
direct id match, else the weighted sum `0.35·name + 0.25·company +
0.40·account`. -/
def calculate_customer_match_confidence (p : WfPayment) (c : Customer) : ℚ :=
  if has_direct_id_match p c then 1
  else
    35/100 * conf_name_similarity p c.name +
    25/100 * conf_company_similarity p c.company +
    40/100 * conf_account_similarity p c.primary_client_id none

/-- `ConfidenceService.calculate_client_match_confidence`: 0.95 on a
direct account match, else the weighted sum `0.35·name + 0.25·company +
0.40·account`. -/
def calculate_client_match_confidence (p : WfPayment) (cl : Client) : ℚ :=
  if has_direct_account_match p cl then 95/100
  else
    35/100 * conf_name_similarity p cl.name +
    25/100 * conf_company_similarity p cl.company +
    40/100 * conf_account_similarity p none cl.account_number

/-- Exception token: Python exceptions carry no information the matching
logic inspects. -/
abbrev Err := Unit

/-- The external collaborators of `PaymentMapperService`: the repository
lookups (the `WF/repositories` package is not part of the matching core),
the batch-scoped `account_ids` cache, the scorer entry points as invoked
by `payment_service.py` (fallible, as any Python call may raise), and the
persistence steps `_apply_customer_payment` / `_apply_client_payment`. -/
structure Env where
  account_ids : List Nat
  get_customer_by_id : Nat → Except Err (Option Customer)
  get_customers_by_primary_client_ids : Nat → Except Err (List Customer)
  get_customers_by_name : String → Except Err (List Customer)
  get_customers_by_company : String → Except Err (List Customer)
  get_client_by_account_number : String → Except Err (Option Client)
  get_clients_by_name : String → Except Err (List Client)
  get_clients_by_company : String → Except Err (List Client)
  calc_customer : WfPayment → Customer → Except Err ℚ
  calc_client : WfPayment → Client → Except Err ℚ
  apply_customer : WfPayment → Customer → ℚ → Except Err Nat
  apply_client : WfPayment → Client → ℚ → Except Err Nat

/-- The `self.stats` counters of `PaymentMapperService`. -/
structure Stats where
  total_processed : Nat := 0
  customer_matches : Nat := 0
  client_matches : Nat := 0
  no_matches : Nat := 0
  high_confidence : Nat := 0
  medium_confidence : Nat := 0
  low_confidence : Nat := 0
  deriving DecidableEq, Repr

/-- Fresh statistics (all counters zero). -/
def statsZero : Stats := {}

/-- The ordered payment account fields scanned by
`_find_customer_match` / `_find_client_match` (four fields, without
`SubAccount`). -/
def acctFieldsFind (p : WfPayment) : List (Option Value) :=
  [p.AccountNumber, p.FullSubAccount, p.ACCT, p.AcctNo]

/-- The candidate loop of `_find_customer_match` / `_find_client_match`:
score each candidate, keep the best strictly-improving one, and return
early on a high-confidence improvement.  Returns the best seen so far,
the exception that aborted the loop (if any; the best-so-far updates
made before it persist), and the early-return flag. -/
def scanBest {α : Type} (score : α → Except Err ℚ) :
    List α → (Option α × ℚ) → ((Option α × ℚ) × Option Err × Bool)
  | [], b => (b, none, false)
  | x :: rest, b =>
    match score x with
    | .error e => (b, some e, false)
    | .ok conf =>
      if b.2 < conf then
        if is_high_confidence conf then ((some x, conf), none, true)
        else scanBest score rest (some x, conf)
      else scanBest score rest b

/-- The direct-customer-id stage of `_find_customer_match` (guarded by
`CustID` truthiness and `isdigit`); its `try`/`except` swallows lookup
and scoring exceptions, leaving the best match unchanged. -/
def custDirectStage (env : Env) (p : WfPayment) : (Option Customer × ℚ) × Bool :=
  if truthy p.CustID && isDigitStr (valStr p.CustID) then
    match env.get_customer_by_id ((valStr p.CustID).toNat?.getD 0) with
    | .error _ => ((none, 0), false)
    | .ok none => ((none, 0), false)
    | .ok (some c) =>
      match env.calc_customer p c with
      | .error _ => ((none, 0), false)
      | .ok conf =>
        if (0 : ℚ) < conf then ((some c, conf), is_high_confidence conf)
        else ((none, 0), false)
  else ((none, 0), false)

/-- The account-number stage of `_find_customer_match`: for each digit
account field whose value is a known account id, look up the customers
keyed by that primary client id and scan them; each field's
`try`/`except` swallows exceptions (keeping best-so-far updates) and
moves on to the next field. -/
def custAccountStage (env : Env) (p : WfPayment) :
    List (Option Value) → (Option Customer × ℚ) → (Option Customer × ℚ) × Bool
  | [], b => (b, false)
  | f :: rest, b =>
    if truthy f && isDigitStr (valStr f) then
      if (valStr f).toNat?.getD 0 ∈ env.account_ids then
        match env.get_customers_by_primary_client_ids ((valStr f).toNat?.getD 0) with
        | .error _ => custAccountStage env p rest b
        | .ok custs =>
          match scanBest (env.calc_customer p) custs b with
          | (b2, _, true) => (b2, true)
          | (b2, _, false) => custAccountStage env p rest b2
      else custAccountStage env p rest b
    else custAccountStage env p rest b

/-- `PaymentMapperService._find_customer_match`: direct id stage, account
stage, then the unguarded name and company stages (whose exceptions
propagate). -/
def find_customer_match (env : Env) (p : WfPayment) :
    Except Err (Option Customer × ℚ) :=
  let s1 := custDirectStage env p
  if s1.2 then .ok s1.1 else
  let s2 := custAccountStage env p (acctFieldsFind p) s1.1
  if s2.2 then .ok s2.1 else
  let s3 : Except Err ((Option Customer × ℚ) × Bool) :=
    if truthy p.CustName then
      match env.get_customers_by_name (valStr p.CustName) with
      | .error e => .error e
      | .ok custs =>
        match scanBest (env.calc_customer p) custs s2.1 with
        | (_, some e, _) => .error e
        | (b3, none, sc) => .ok (b3, sc)
    else .ok (s2.1, false)
  match s3 with
  | .error e => .error e
  | .ok (b3, true) => .ok b3
  | .ok (b3, false) =>
    if truthy p.CompName then
      match env.get_customers_by_company (valStr p.CompName) with
      | .error e => .error e
      | .ok custs =>
        match scanBest (env.calc_customer p) custs b3 with
        | (_, some e, _) => .error e
        | (b4, none, _) => .ok b4
    else .ok b3

/-- The direct-account stage of `_find_client_match`: look up a client by
each truthy account field and scan it (no `try`/`except`: exceptions
propagate). -/
def clientAccountStage (env : Env) (p : WfPayment) :
    List (Option Value) → (Option Client × ℚ) → Except Err ((Option Client × ℚ) × Bool)
  | [], b => .ok (b, false)
  | f :: rest, b =>
    if truthy f then
      match env.get_client_by_account_number (valStr f) with
      | .error e => .error e
      | .ok none => clientAccountStage env p rest b
      | .ok (some cl) =>
        match env.calc_client p cl with
        | .error e => .error e
        | .ok conf =>
          if b.2 < conf then
            if is_high_confidence conf then .ok ((some cl, conf), true)
            else clientAccountStage env p rest (some cl, conf)
          else clientAccountStage env p rest b
    else clientAccountStage env p rest b

/-- `PaymentMapperService._find_client_match`: account stage, then name
and company stages; no stage catches exceptions. -/
def find_client_match (env : Env) (p : WfPayment) :
    Except Err (Option Client × ℚ) :=
  match clientAccountStage env p (acctFieldsFind p) (none, 0) with
  | .error e => .error e
  | .ok (b1, true) => .ok b1
  | .ok (b1, false) =>
    match ((if truthy p.CustName then
             match env.get_clients_by_name (valStr p.CustName) with
             | .error e => .error e
             | .ok cls =>
               match scanBest (env.calc_client p) cls b1 with
               | (_, some e, _) => .error e
               | (b2, none, sc) => .ok (b2, sc)
           else .ok (b1, false)) :
        Except Err ((Option Client × ℚ) × Bool)) with
    | .error e => .error e
    | .ok (b2, true) => .ok b2
    | .ok (b2, false) =>
      if truthy p.CompName then
        match env.get_clients_by_company (valStr p.CompName) with
        | .error e => .error e
        | .ok cls =>
          match scanBest (env.calc_client p) cls b2 with
          | (_, some e, _) => .error e
          | (b3, none, _) => .ok b3
      else .ok b2

/-- `total_processed` increment done at the top of the `try` block of
`process_payment`. -/
def statsInc (s : Stats) : Stats :=
  { s with total_processed := s.total_processed + 1 }

/-- Stats update of the high-confidence customer branch. -/
def statsCust (s : Stats) : Stats :=
  { s with customer_matches := s.customer_matches + 1,
           high_confidence := s.high_confidence + 1 }

/-- The client phase of `process_payment`: accept the best client match
only when `is_medium_confidence` holds of its score, else fall through
to `no_match` with the larger of the two best scores. -/
def clientPhase (env : Env) (stats1 : Stats) (p : WfPayment) (custConf : ℚ) :
    Except Err (Stats × (Bool × String × ℚ)) :=
  match find_client_match env p with
  | .error e => .error e
  | .ok (some cl, clConf) =>
    if is_medium_confidence clConf then
      let s2 := { stats1 with client_matches := stats1.client_matches + 1 }
      let s3 := if is_high_confidence clConf then
          { s2 with high_confidence := s2.high_confidence + 1 }
        else { s2 with medium_confidence := s2.medium_confidence + 1 }
      match env.apply_client p cl clConf with
      | .error e => .error e
      | .ok _ => .ok (s3, (true, "client_match", clConf))
    else
      .ok ({ stats1 with no_matches := stats1.no_matches + 1 },
        (false, "no_match", max custConf clConf))
  | .ok (none, clConf) =>
    .ok ({ stats1 with no_matches := stats1.no_matches + 1 },
      (false, "no_match", max custConf clConf))

/-- `PaymentMapperService.process_payment`: reject a payment without a
truthy `ID` as `(False, "error", 0.0)`; otherwise count it, try the
customer phase (accepted only at high confidence), then the client
phase; exceptions propagate (the `except` clause re-raises). -/
def process_payment (env : Env) (stats : Stats) (p : WfPayment) :
    Except Err (Stats × (Bool × String × ℚ)) :=
  if truthy p.ID then
    let stats1 := statsInc stats
    match find_customer_match env p with
    | .error e => .error e
    | .ok (some c, custConf) =>
      if is_high_confidence custConf then
        match env.apply_customer p c custConf with
        | .error e => .error e
        | .ok _ => .ok (statsCust stats1, (true, "customer_match", custConf))
      else clientPhase env stats1 p custConf
    | .ok (none, custConf) => clientPhase env stats1 p custConf
  else .ok (stats, (false, "error", 0))

/-- A baseline environment: empty repository, the embedded scorers, and
persistence succeeding. -/
def envBase : Env where
  account_ids := []
  get_customer_by_id := fun _ => .ok none
  get_customers_by_primary_client_ids := fun _ => .ok []
  get_customers_by_name := fun _ => .ok []
  get_customers_by_company := fun _ => .ok []
  get_client_by_account_number := fun _ => .ok none
  get_clients_by_name := fun _ => .ok []
  get_clients_by_company := fun _ => .ok []
  calc_customer := fun p c => .ok (calculate_customer_match_confidence p c)
  calc_client := fun p cl => .ok (calculate_client_match_confidence p cl)
  apply_customer := fun _ _ _ => .ok 1
  apply_client := fun _ _ _ => .ok 1

/-- A client whose `account_number` is `"777"`. -/
def clientAcct777 : Client :=
  { client_id := some (Value.vInt 9), account_number := some (Value.vStr "777") }

/-- A payment whose `AccountNumber` is `"777"` (a direct client account
match). -/
def payAcct777 : WfPayment :=
  { ID := some (Value.vStr "1"), AccountNumber := some (Value.vStr "777") }

/-- Environment where `"777"` resolves to `clientAcct777`. -/
def envAcct777 : Env :=
  { envBase with
    get_client_by_account_number := fun s =>
      if s = "777" then .ok (some clientAcct777) else .ok none }

/-- The customer of the spec's direct-id scenario (`customer_id` 4021). -/
def custId4021 : Customer :=
  { customer_id := some (Value.vInt 4021), name := some (Value.vStr "John Smith") }

/-- The payment of the spec's direct-id scenario (`CustID` `"4021"`). -/
def payCust4021 : WfPayment :=
  { ID := some (Value.vStr "9"), CustID := some (Value.vStr "4021"),
    CustName := some (Value.vStr "J Smith") }

/-- Environment where customer id 4021 resolves to `custId4021`. -/
def envCust4021 : Env :=
  { envBase with
    get_customer_by_id := fun n =>
      if n = 4021 then .ok (some custId4021) else .ok none }

/-- A customer candidate used by the scoring-exception scenarios. -/
def custBob : Customer :=
  { customer_id := some (Value.vInt 5), name := some (Value.vStr "Bob") }

/-- Environment whose name lookup returns `custBob` and whose customer
scorer raises on every candidate. -/
def envScoreRaisesName : Env :=
  { envBase with
    get_customers_by_name := fun _ => .ok [custBob],
    calc_customer := fun _ _ => .error () }

/-- Environment whose id lookup returns `custBob` and whose customer
scorer raises on every candidate. -/
def envScoreRaisesId : Env :=
  { envBase with
    get_customer_by_id := fun _ => .ok (some custBob),
    calc_customer := fun _ _ => .error () }

/-- A payment carrying only a truthy `ID` and `CustName`. -/
def payNameOnly : WfPayment :=
  { ID := some (Value.vStr "1"), CustName := some (Value.vStr "Bob") }

/-- A payment carrying a truthy `ID` and a digit `CustID`, but no name or
company. -/
def payCustIdOnly : WfPayment :=
  { ID := some (Value.vStr "1"), CustID := some (Value.vStr "7") }

/-- A payment whose `ID` field is missing. -/
def payNoId : WfPayment := {}

/-- Payment and customer with matching direct customer id ("42"). -/
def payC2 : WfPayment := { CustID := some (Value.vStr "42") }

/-- Customer whose `customer_id` is the integer 42. -/
def custC2 : Customer := { customer_id := some (Value.vInt 42) }

/-- Payment whose `AccountNumber` is `"A1"`. -/
def payC2b : WfPayment := { AccountNumber := some (Value.vStr "A1") }

/-- Client whose `account_number` is `"A1"`. -/
def clC2 : Client := { account_number := some (Value.vStr "A1") }

/-- Invariant carried through the `find_longest_match` scan: the best
triple is trivial or denotes a block inside both strings. -/
def bestInv (la lb : Nat) (x : Nat × Nat × Nat) : Prop :=
  x.2.2 = 0 ∨ (x.1 + x.2.2 ≤ la ∧ x.2.1 + x.2.2 ≤ lb)

theorem strLen (s : String) : s.length = s.toList.length := rfl

theorem foldl_inv {α β : Type} {P : β → Prop} (f : β → α → β) :
    ∀ (l : List α) (b : β), P b → (∀ x ∈ l, ∀ y, P y → P (f y x)) → P (l.foldl f b)
  | [], _, hb, _ => hb
  | x :: xs, b, hb, hstep =>
    foldl_inv f xs (f b x) (hstep x (by simp) b hb)
      (fun z hz => hstep z (by simp [hz]))

theorem commonLeadLen_le_left : ∀ xs ys : List Char, commonLeadLen xs ys ≤ xs.length := by
  intro xs
  induction xs with
  | nil => intro ys; cases ys <;> simp [commonLeadLen]
  | cons c cs ih =>
    intro ys
    cases ys with
    | nil => simp [commonLeadLen]
    | cons d ds =>
      simp only [commonLeadLen, List.length_cons]
      split
      · exact Nat.succ_le_succ (ih ds)
      · simp

theorem commonLeadLen_le_right : ∀ xs ys : List Char, commonLeadLen xs ys ≤ ys.length := by
  intro xs
  induction xs with
  | nil => intro ys; cases ys <;> simp [commonLeadLen]
  | cons c cs ih =>
    intro ys
    cases ys with
    | nil => simp [commonLeadLen]
    | cons d ds =>
      simp only [commonLeadLen, List.length_cons]
      split
      · exact Nat.succ_le_succ (ih ds)
      · simp

theorem findBest_bounds (a b : List Char) : bestInv a.length b.length (findBest a b) := by
  unfold findBest
  refine foldl_inv _ _ _ (Or.inl rfl) ?_
  intro i hi acc hacc
  refine foldl_inv _ _ _ hacc ?_
  intro j hj acc2 hacc2
  by_cases h : acc2.2.2 < matchLenAt a b i j
  · rw [if_pos h]
    have hia : i < a.length := List.mem_range.mp hi
    have hjb : j < b.length := List.mem_range.mp hj
    have h1 : matchLenAt a b i j ≤ a.length - i := by
      have := commonLeadLen_le_left (a.drop i) (b.drop j)
      simpa [matchLenAt] using this
    have h2 : matchLenAt a b i j ≤ b.length - j := by
      have := commonLeadLen_le_right (a.drop i) (b.drop j)
      simpa [matchLenAt] using this
    exact Or.inr ⟨by simp; omega, by simp; omega⟩
  · rw [if_neg h]; exact hacc2

theorem totalMatchesAux_le (fuel : Nat) :
    ∀ a b : List Char,
      totalMatchesAux fuel a b ≤ a.length ∧ totalMatchesAux fuel a b ≤ b.length := by
  induction fuel with
  | zero => intro a b; simp [totalMatchesAux]
  | succ n ih =>
    intro a b
    have hfb := findBest_bounds a b
    rcases hb : findBest a b with ⟨i, j, k⟩
    rw [hb] at hfb
    unfold bestInv at hfb
    have hunf : totalMatchesAux (n + 1) a b =
        if k = 0 then 0
        else k + totalMatchesAux n (a.take i) (b.take j)
          + totalMatchesAux n (a.drop (i + k)) (b.drop (j + k)) := by
      simp only [totalMatchesAux]
      rw [hb]
    rw [hunf]
    by_cases hk : k = 0
    · simp [hk]
    · rw [if_neg hk]
      rcases hfb with hk0 | ⟨hia, hjb⟩
      · exact absurd hk0 hk
      · have hia2 : i + k ≤ a.length := hia
        have hjb2 : j + k ≤ b.length := hjb
        have t1 := ih (a.take i) (b.take j)
        have t2 := ih (a.drop (i + k)) (b.drop (j + k))
        simp only [List.length_take, List.length_drop] at t1 t2
        constructor <;> omega

theorem totalMatches_le (a b : List Char) :
    totalMatches a b ≤ a.length ∧ totalMatches a b ≤ b.length :=
  totalMatchesAux_le _ a b

theorem ratioQ_nonneg (a b : List Char) : 0 ≤ ratioQ a b := by
  unfold ratioQ
  split
  · norm_num
  · positivity

theorem ratioQ_le_one (a b : List Char) : ratioQ a b ≤ 1 := by
  unfold ratioQ
  split
  · norm_num
  next h =>
    have hpos : 0 < (a.length : ℚ) + (b.length : ℚ) := by
      have := Nat.pos_of_ne_zero h
      exact_mod_cast this
    rw [div_le_one hpos]
    have h1 := totalMatches_le a b
    have c1 : (totalMatches a b : ℚ) ≤ (a.length : ℚ) := by exact_mod_cast h1.1
    have c2 : (totalMatches a b : ℚ) ≤ (b.length : ℚ) := by exact_mod_cast h1.2
    linarith

theorem startsWithL_length : ∀ xs ys : List Char, startsWithL xs ys = true → xs.length ≤ ys.length := by
  intro xs
  induction xs with
  | nil => intro ys _; simp
  | cons c cs ih =>
    intro ys h
    cases ys with
    | nil => simp [startsWithL] at h
    | cons d ds =>
      simp only [startsWithL, Bool.and_eq_true] at h
      simpa using Nat.succ_le_succ (ih ds h.2)

theorem substrCheck_length {s t : String} (h : substrCheck s t = true) :
    s.length ≤ t.length := by
  unfold substrCheck substrCheckL at h
  rw [List.any_eq_true] at h
  rcases h with ⟨i, _, hi⟩
  have := startsWithL_length _ _ hi
  have hd : (t.toList.drop i).length ≤ t.toList.length := by
    simp [List.length_drop]
  calc s.length = s.toList.length := strLen s
    _ ≤ (t.toList.drop i).length := this
    _ ≤ t.toList.length := hd
    _ = t.length := (strLen t).symm

theorem substrCheck_empty_left (t : String) : substrCheck "" t = true := by
  unfold substrCheck substrCheckL
  rw [List.any_eq_true]
  refine ⟨0, ?_, ?_⟩
  · simp
  · simp [startsWithL]

theorem check_exact_match_bounds (t1 t2 : String) :
    0 ≤ check_exact_match t1 t2 ∧ check_exact_match t1 t2 ≤ 1 := by
  unfold check_exact_match
  split <;> norm_num

theorem div_len_le_one {m n : Nat} (h : m ≤ n) : (m : ℚ) / (n : ℚ) ≤ 1 := by
  rcases Nat.eq_zero_or_pos n with h0 | h0
  · simp [h0]
  · rw [div_le_one (by exact_mod_cast h0)]
    exact_mod_cast h

theorem check_contains_bounds (t1 t2 : String) :
    0 ≤ check_contains t1 t2 ∧ check_contains t1 t2 ≤ 1 := by
  unfold check_contains
  split
  next h =>
    have hd := div_len_le_one (substrCheck_length h)
    have hd0 : (0 : ℚ) ≤ (t1.length : ℚ) / (t2.length : ℚ) := by positivity
    constructor
    · positivity
    · nlinarith
  next =>
    split
    next h =>
      have hd := div_len_le_one (substrCheck_length h)
      have hd0 : (0 : ℚ) ≤ (t2.length : ℚ) / (t1.length : ℚ) := by positivity
      constructor
      · positivity
      · nlinarith
    next => norm_num

theorem check_token_match_bounds (t1 t2 : String) :
    0 ≤ check_token_match t1 t2 ∧ check_token_match t1 t2 ≤ 1 := by
  unfold check_token_match
  dsimp only
  split
  · norm_num
  · split
    next h =>
      set tk1 := tokenSet t1 with htk1
      set tk2 := tokenSet t2 with htk2
      have hle : (tk1.filter (fun w => w ∈ tk2)).length ≤
          tk1.length + (tk2.filter (fun w => ¬ w ∈ tk1)).length :=
        le_trans (List.length_filter_le _ _) (Nat.le_add_right _ _)
      have hd := div_len_le_one hle
      have hd0 : (0 : ℚ) ≤ ((tk1.filter (fun w => w ∈ tk2)).length : ℚ) /
          ((tk1.length + (tk2.filter (fun w => ¬ w ∈ tk1)).length : Nat) : ℚ) := by positivity
      constructor
      · push_cast at hd0 ⊢
        positivity
      · push_cast at hd ⊢
        nlinarith
    next => norm_num

theorem check_sequence_match_bounds (t1 t2 : String) :
    0 ≤ check_sequence_match t1 t2 ∧ check_sequence_match t1 t2 ≤ 1 := by
  unfold check_sequence_match
  split
  · norm_num
  · have h0 := ratioQ_nonneg t1.toList t2.toList
    have h1 := ratioQ_le_one t1.toList t2.toList
    constructor <;> nlinarith

theorem calculate_name_similarity_bounds (n1 n2 : String) :
    0 ≤ calculate_name_similarity n1 n2 ∧ calculate_name_similarity n1 n2 ≤ 1 := by
  unfold calculate_name_similarity
  dsimp only
  split
  · norm_num
  · split
    · norm_num
    · have he := check_exact_match_bounds (normalize_string n1) (normalize_string n2)
      have hc := check_contains_bounds (normalize_string n1) (normalize_string n2)
      have ht := check_token_match_bounds (normalize_string n1) (normalize_string n2)
      have hs := check_sequence_match_bounds (normalize_string n1) (normalize_string n2)
      constructor
      · exact le_max_of_le_left (le_max_of_le_left he.1)
      · exact max_le (max_le he.2 hc.2) (max_le ht.2 hs.2)

theorem calculate_account_similarity_bounds (a1 a2 : String) :
    0 ≤ calculate_account_similarity a1 a2 ∧ calculate_account_similarity a1 a2 ≤ 1 := by
  unfold calculate_account_similarity
  dsimp only
  split
  · norm_num
  · split
    · norm_num
    · split
      · split
        next h =>
          rw [← Nat.cast_min, ← Nat.cast_max]
          have hd := div_len_le_one
            (min_le_max (a := (normalize_account a1).length) (b := (normalize_account a2).length))
          have hd0 : (0 : ℚ) ≤ ((min (normalize_account a1).length (normalize_account a2).length : Nat) : ℚ) /
              ((max (normalize_account a1).length (normalize_account a2).length : Nat) : ℚ) := by positivity
          constructor
          · positivity
          · nlinarith
        next =>
          have hs := check_sequence_match_bounds (normalize_account a1) (normalize_account a2)
          constructor <;> nlinarith [hs.1, hs.2]
      · have hs := check_sequence_match_bounds (normalize_account a1) (normalize_account a2)
        constructor <;> nlinarith [hs.1, hs.2]

theorem conf_name_similarity_bounds (p : WfPayment) (v : Option Value) :
    0 ≤ conf_name_similarity p v ∧ conf_name_similarity p v ≤ 1 := by
  unfold conf_name_similarity
  split
  · exact calculate_name_similarity_bounds _ _
  · norm_num

theorem conf_company_similarity_bounds (p : WfPayment) (v : Option Value) :
    0 ≤ conf_company_similarity p v ∧ conf_company_similarity p v ≤ 1 := by
  unfold conf_company_similarity
  split
  · exact calculate_name_similarity_bounds _ _
  · norm_num

theorem maxFold_bounds (p : WfPayment) (ea : String) :
    0 ≤ ((accountFieldsConf p).foldl (fun m f =>
        if truthy f then max m (calculate_account_similarity (valStr f) ea) else m) 0) ∧
      ((accountFieldsConf p).foldl (fun m f =>
        if truthy f then max m (calculate_account_similarity (valStr f) ea) else m) 0) ≤ 1 := by
  refine foldl_inv (P := fun m => 0 ≤ m ∧ m ≤ 1) _ _ _ ⟨le_refl 0, by norm_num⟩ ?_
  intro f _ m hm
  by_cases ht : truthy f = true
  · rw [if_pos ht]
    have hb := calculate_account_similarity_bounds (valStr f) ea
    exact ⟨le_max_of_le_left hm.1, max_le hm.2 hb.2⟩
  · rw [if_neg ht]; exact hm

theorem conf_account_similarity_bounds (p : WfPayment) (v w : Option Value) :
    0 ≤ conf_account_similarity p v w ∧ conf_account_similarity p v w ≤ 1 := by
  unfold conf_account_similarity
  split
  · exact maxFold_bounds p _
  · split
    · exact maxFold_bounds p _
    · norm_num

theorem weighted_sum_bounds {n c a : ℚ}
    (hn : 0 ≤ n ∧ n ≤ 1) (hc : 0 ≤ c ∧ c ≤ 1) (ha : 0 ≤ a ∧ a ≤ 1) :
    0 ≤ 35/100 * n + 25/100 * c + 40/100 * a ∧
      35/100 * n + 25/100 * c + 40/100 * a ≤ 1 := by
  constructor <;> nlinarith [hn.1, hn.2, hc.1, hc.2, ha.1, ha.2]

theorem calculate_customer_match_confidence_bounds (p : WfPayment) (c : Customer) :
    0 ≤ calculate_customer_match_confidence p c ∧
      calculate_customer_match_confidence p c ≤ 1 := by
  unfold calculate_customer_match_confidence
  split
  · norm_num
  · exact weighted_sum_bounds (conf_name_similarity_bounds p c.name)
      (conf_company_similarity_bounds p c.company)
      (conf_account_similarity_bounds p c.primary_client_id none)

theorem calculate_client_match_confidence_bounds (p : WfPayment) (cl : Client) :
    0 ≤ calculate_client_match_confidence p cl ∧
      calculate_client_match_confidence p cl ≤ 1 := by
  unfold calculate_client_match_confidence
  split
  · norm_num
  · exact weighted_sum_bounds (conf_name_similarity_bounds p cl.name)
      (conf_company_similarity_bounds p cl.company)
      (conf_account_similarity_bounds p none cl.account_number)

theorem is_high_iff (q : ℚ) : is_high_confidence q = true ↔ 60/100 ≤ q := by
  simp [is_high_confidence, high_confidence_threshold]

theorem is_medium_iff (q : ℚ) :
    is_medium_confidence q = true ↔ (50/100 ≤ q ∧ q < 60/100) := by
  simp [is_medium_confidence, medium_confidence_threshold, high_confidence_threshold]

theorem is_low_iff (q : ℚ) :
    is_low_confidence q = true ↔ (40/100 ≤ q ∧ q < 50/100) := by
  simp [is_low_confidence, low_confidence_threshold, medium_confidence_threshold]

/-- Claim C1: the spec says a best client score at or above the medium
threshold (0.50) — including scores at or above 0.60, such as the 0.95
of a direct account match — yields a client_match decision.  The code
gates the client branch with `is_medium_confidence`, which excludes
scores at or above 0.60, so a direct-account client match scoring 0.95
falls through to `no_match`; the inner `is_high_confidence` statistics
branch of that gate is unreachable, and the "medium+" log message shows
the gate is a slip. -/
theorem claim_c1_medium_gate_drops_direct_client :
    calculate_client_match_confidence payAcct777 clientAcct777 = 95/100 ∧
    find_client_match envAcct777 payAcct777 = .ok (some clientAcct777, 95/100) ∧
    medium_confidence_threshold ≤ (95/100 : ℚ) ∧
    is_medium_confidence (95/100) = false ∧
    process_payment envAcct777 statsZero payAcct777 =
      .ok ({ statsZero with total_processed := 1, no_matches := 1 },
        (false, "no_match", 95/100)) :=
  ⟨rfl, by with_unfolding_all rfl, by norm_num [medium_confidence_threshold],
    by with_unfolding_all rfl, by with_unfolding_all rfl⟩

/-- Claim C2: a direct identifier match returns exactly 1.0 for customer
scoring and exactly 0.95 for client scoring, with no blending,
regardless of every other field. -/
theorem claim_c2_direct_scores :
    (∀ (p : WfPayment) (c : Customer), has_direct_id_match p c = true →
      calculate_customer_match_confidence p c = 1) ∧
    (∀ (p : WfPayment) (cl : Client), has_direct_account_match p cl = true →
      calculate_client_match_confidence p cl = 95/100) := by
  constructor
  · intro p c h
    unfold calculate_customer_match_confidence
    rw [if_pos h]
  · intro p cl h
    unfold calculate_client_match_confidence
    rw [if_pos h]

theorem claim_c2_witness :
    has_direct_id_match payC2 custC2 = true ∧
    calculate_customer_match_confidence payC2 custC2 = 1 ∧
    has_direct_account_match payC2b clC2 = true ∧
    calculate_client_match_confidence payC2b clC2 = 95/100 :=
  ⟨by decide, claim_c2_direct_scores.1 payC2 custC2 (by decide),
   by decide, claim_c2_direct_scores.2 payC2b clC2 (by decide)⟩

/-- Claim C3 counterexample: on accounts "12" and "13" (normalized forms
unequal, neither contained in the other) the code returns 0.72 × the
sequence ratio (0.36), not 0.8 × the sequence ratio (0.40) as claimed. -/
theorem claim_c3_cex :
    ¬ (calculate_account_similarity "12" "13" =
        8/10 * ratioQ (normalize_account "12").toList (normalize_account "13").toList) := by
  intro h
  have h1 : calculate_account_similarity "12" "13" = 9/25 := by with_unfolding_all rfl
  have h2 : ratioQ (normalize_account "12").toList (normalize_account "13").toList = 1/2 := by
    with_unfolding_all rfl
  rw [h1, h2] at h
  norm_num at h

/-- Claim C3 amended: in the no-containment fuzzy case the account
similarity is `0.8 × _check_sequence_match = 0.8 × (0.9 × ratio) =
0.72 × ratio`. -/
theorem claim_c3_seq_scaling (a1 a2 : String) (h1 : a1 ≠ "") (h2 : a2 ≠ "")
    (h3 : normalize_account a1 ≠ normalize_account a2)
    (h4 : substrCheck (normalize_account a1) (normalize_account a2) = false)
    (h5 : substrCheck (normalize_account a2) (normalize_account a1) = false) :
    calculate_account_similarity a1 a2 =
      72/100 * ratioQ (normalize_account a1).toList (normalize_account a2).toList := by
  have hne1 : normalize_account a1 ≠ "" := by
    intro h
    rw [h, substrCheck_empty_left] at h4
    exact Bool.noConfusion h4
  have hne2 : normalize_account a2 ≠ "" := by
    intro h
    rw [h, substrCheck_empty_left] at h5
    exact Bool.noConfusion h5
  unfold calculate_account_similarity
  dsimp only
  rw [if_neg (by simp [h1, h2]), if_neg h3, if_neg (by simp [h4, h5])]
  unfold check_sequence_match
  rw [if_neg (by simp [hne1, hne2])]
  ring

theorem claim_c3_witness :
    ("12" : String) ≠ "" ∧ ("13" : String) ≠ "" ∧
      normalize_account "12" ≠ normalize_account "13" ∧
      substrCheck (normalize_account "12") (normalize_account "13") = false ∧
      substrCheck (normalize_account "13") (normalize_account "12") = false ∧
      calculate_account_similarity "12" "13" =
        72/100 * ratioQ (normalize_account "12").toList (normalize_account "13").toList :=
  ⟨by decide, by decide, by decide, by decide, by decide,
    claim_c3_seq_scaling "12" "13" (by decide) (by decide) (by decide) (by decide) (by decide)⟩

/-- Claim C4 counterexample: at `s = ""` the empty-input guard runs
before the self-equality check, so `similarity("", "") = 0.0 ≠ 1.0`. -/
theorem claim_c4_cex : ¬ (calculate_name_similarity "" "" = 1) := by decide

/-- Claim C4 amended: `similarity(s, s) = 1.0` for every nonempty `s`,
and `similarity("", x) = 0.0` for every `x`. -/
theorem claim_c4_self_one_empty_zero :
    (∀ s : String, s ≠ "" → calculate_name_similarity s s = 1) ∧
    (∀ x : String, calculate_name_similarity "" x = 0) := by
  constructor
  · intro s hs
    simp [calculate_name_similarity, hs]
  · intro x
    simp [calculate_name_similarity]

theorem claim_c4_witness :
    ("ab" : String) ≠ "" ∧ calculate_name_similarity "ab" "ab" = 1 ∧
      calculate_name_similarity "" "xy" = 0 :=
  ⟨by decide, claim_c4_self_one_empty_zero.1 "ab" (by decide),
    claim_c4_self_one_empty_zero.2 "xy"⟩

/-- Claim C5: the tier predicates split `[0, 1]` into exactly one of
high (`≥ 0.60`), medium (`[0.50, 0.60)`), low (`[0.40, 0.50)`), none
(`< 0.40`). -/
theorem claim_c5_tier_partition (q : ℚ) (h0 : 0 ≤ q) (h1 : q ≤ 1) :
    (is_high_confidence q = true ∧ is_medium_confidence q = false ∧
      is_low_confidence q = false ∧ ¬ q < low_confidence_threshold) ∨
    (is_high_confidence q = false ∧ is_medium_confidence q = true ∧
      is_low_confidence q = false ∧ ¬ q < low_confidence_threshold) ∨
    (is_high_confidence q = false ∧ is_medium_confidence q = false ∧
      is_low_confidence q = true ∧ ¬ q < low_confidence_threshold) ∨
    (is_high_confidence q = false ∧ is_medium_confidence q = false ∧
      is_low_confidence q = false ∧ q < low_confidence_threshold) := by
  have hlt : low_confidence_threshold = 40/100 := rfl
  rcases le_or_lt (60/100 : ℚ) q with hh | hh
  · refine Or.inl ⟨(is_high_iff q).mpr hh, ?_, ?_, ?_⟩
    · exact Bool.eq_false_iff.mpr (fun hm => absurd ((is_medium_iff q).mp hm).2 (not_lt.mpr hh))
    · exact Bool.eq_false_iff.mpr (fun hl => absurd ((is_low_iff q).mp hl).2 (by linarith))
    · rw [hlt]; linarith
  · rcases le_or_lt (50/100 : ℚ) q with hm | hm
    · refine Or.inr (Or.inl ⟨?_, (is_medium_iff q).mpr ⟨hm, hh⟩, ?_, ?_⟩)
      · exact Bool.eq_false_iff.mpr (fun hx => absurd ((is_high_iff q).mp hx) (not_le.mpr hh))
      · exact Bool.eq_false_iff.mpr (fun hl => absurd ((is_low_iff q).mp hl).2 (by linarith))
      · rw [hlt]; linarith
    · rcases le_or_lt (40/100 : ℚ) q with hl | hl
      · refine Or.inr (Or.inr (Or.inl ⟨?_, ?_, (is_low_iff q).mpr ⟨hl, hm⟩, ?_⟩))
        · exact Bool.eq_false_iff.mpr (fun hx => absurd ((is_high_iff q).mp hx) (by linarith))
        · exact Bool.eq_false_iff.mpr (fun hx => absurd ((is_medium_iff q).mp hx).1 (not_le.mpr hm))
        · rw [hlt]; linarith
      · refine Or.inr (Or.inr (Or.inr ⟨?_, ?_, ?_, ?_⟩))
        · exact Bool.eq_false_iff.mpr (fun hx => absurd ((is_high_iff q).mp hx) (by linarith))
        · exact Bool.eq_false_iff.mpr (fun hx => absurd ((is_medium_iff q).mp hx).1 (by linarith))
        · exact Bool.eq_false_iff.mpr (fun hx => absurd ((is_low_iff q).mp hx).1 (not_le.mpr hl))
        · rw [hlt]; exact hl

theorem claim_c5_witness :
    (0 : ℚ) ≤ 55/100 ∧ (55/100 : ℚ) ≤ 1 ∧
    ((is_high_confidence (55/100) = true ∧ is_medium_confidence (55/100) = false ∧
      is_low_confidence (55/100) = false ∧ ¬ (55/100 : ℚ) < low_confidence_threshold) ∨
    (is_high_confidence (55/100) = false ∧ is_medium_confidence (55/100) = true ∧
      is_low_confidence (55/100) = false ∧ ¬ (55/100 : ℚ) < low_confidence_threshold) ∨
    (is_high_confidence (55/100) = false ∧ is_medium_confidence (55/100) = false ∧
      is_low_confidence (55/100) = true ∧ ¬ (55/100 : ℚ) < low_confidence_threshold) ∨
    (is_high_confidence (55/100) = false ∧ is_medium_confidence (55/100) = false ∧
      is_low_confidence (55/100) = false ∧ (55/100 : ℚ) < low_confidence_threshold)) :=
  ⟨by norm_num, by norm_num, claim_c5_tier_partition (55/100) (by norm_num) (by norm_num)⟩

/-- Claim C6: both confidence scorers always return a value in `[0, 1]`. -/
theorem claim_c6_unit_interval :
    (∀ (p : WfPayment) (c : Customer),
      0 ≤ calculate_customer_match_confidence p c ∧
        calculate_customer_match_confidence p c ≤ 1) ∧
    (∀ (p : WfPayment) (cl : Client),
      0 ≤ calculate_client_match_confidence p cl ∧
        calculate_client_match_confidence p cl ≤ 1) :=
  ⟨calculate_customer_match_confidence_bounds, calculate_client_match_confidence_bounds⟩

/-- Claim C7 counterexample: on the spec's own scenario the decision
tuple records `"customer_match"`, never `"direct_id"`. -/
theorem claim_c7_cex :
    process_payment envCust4021 statsZero payCust4021 =
      .ok (statsCust (statsInc statsZero), (true, "customer_match", 1)) ∧
    ("customer_match" : String) ≠ "direct_id" :=
  ⟨by with_unfolding_all rfl, by decide⟩

/-- Claim C7 amended: a high-confidence customer match (in particular the
direct id shortcut with confidence 1.0) is recorded with match type
`"customer_match"` and the score as confidence. -/
theorem claim_c7_match_type (env : Env) (stats : Stats) (p : WfPayment)
    (c : Customer) (q : ℚ) (n : Nat)
    (hID : truthy p.ID = true)
    (hfind : find_customer_match env p = .ok (some c, q))
    (hhigh : is_high_confidence q = true)
    (happly : env.apply_customer p c q = .ok n) :
    process_payment env stats p =
      .ok (statsCust (statsInc stats), (true, "customer_match", q)) := by
  simp [process_payment, hID, hfind, hhigh, happly]

theorem claim_c7_witness :
    truthy payCust4021.ID = true ∧
    find_customer_match envCust4021 payCust4021 = .ok (some custId4021, 1) ∧
    is_high_confidence 1 = true ∧
    envCust4021.apply_customer payCust4021 custId4021 1 = .ok 1 ∧
    process_payment envCust4021 statsZero payCust4021 =
      .ok (statsCust (statsInc statsZero), (true, "customer_match", 1)) :=
  ⟨rfl, by with_unfolding_all rfl, by with_unfolding_all rfl, rfl,
    claim_c7_match_type envCust4021 statsZero payCust4021 custId4021 1 1 rfl
      (by with_unfolding_all rfl) (by with_unfolding_all rfl) rfl⟩

/-- Claim C8 counterexample: a scoring exception on a candidate from the
name lookup propagates out of `process_payment` (the code re-raises),
aborting the payment's evaluation. -/
theorem claim_c8_cex :
    process_payment envScoreRaisesName statsZero payNameOnly = .error () := by
  with_unfolding_all rfl

/-- Claim C8 amended: only the direct-id and account-number stages of
`_find_customer_match` catch scoring exceptions; when the name and
company stages are not entered, no exception escapes, whatever the
lookups and the scorer do. -/
theorem claim_c8_guarded_stages (env : Env) (p : WfPayment)
    (h1 : truthy p.CustName = false) (h2 : truthy p.CompName = false) :
    ∃ r, find_customer_match env p = .ok r := by
  unfold find_customer_match
  dsimp only
  rw [h1, h2]
  by_cases hsc1 : (custDirectStage env p).2 = true
  · rw [if_pos hsc1]
    exact ⟨_, rfl⟩
  · rw [if_neg hsc1]
    by_cases hsc2 :
        (custAccountStage env p (acctFieldsFind p) (custDirectStage env p).1).2 = true
    · rw [if_pos hsc2]
      exact ⟨_, rfl⟩
    · rw [if_neg hsc2]
      exact ⟨_, rfl⟩

theorem claim_c8_witness :
    truthy payCustIdOnly.CustName = false ∧ truthy payCustIdOnly.CompName = false ∧
      (∃ r, find_customer_match envScoreRaisesId payCustIdOnly = .ok r) :=
  ⟨rfl, rfl, claim_c8_guarded_stages envScoreRaisesId payCustIdOnly rfl rfl⟩

/-- Claim C10: a payment with a missing or falsy `ID` yields
`(False, "error", 0.0)` without raising, without touching any
collaborator, and with the statistics unchanged. -/
theorem claim_c10_missing_id (env env2 : Env) (stats : Stats) (p : WfPayment)
    (h : truthy p.ID = false) :
    process_payment env stats p = .ok (stats, (false, "error", 0)) ∧
      process_payment env stats p = process_payment env2 stats p := by
  constructor
  · unfold process_payment
    rw [h]
    rfl
  · unfold process_payment
    rw [h]
    rfl

theorem claim_c10_witness :
    truthy payNoId.ID = false ∧
      process_payment envBase statsZero payNoId = .ok (statsZero, (false, "error", 0)) ∧
      process_payment envBase statsZero payNoId =
        process_payment envScoreRaisesName statsZero payNoId :=
  ⟨rfl, (claim_c10_missing_id envBase envScoreRaisesName statsZero payNoId rfl).1,
    (claim_c10_missing_id envBase envScoreRaisesName statsZero payNoId rfl).2⟩

/-- Claim C9: nonempty inputs with equal normalized forms (including
forms that normalize to the empty string, such as pure punctuation or a
lone honorific) score exactly 1.0. -/
theorem claim_c9_normalized_equal_one (s t : String) (hs : s ≠ "") (ht : t ≠ "")
    (h : normalize_string s = normalize_string t) :
    calculate_name_similarity s t = 1 := by
  simp [calculate_name_similarity, hs, ht, h]

theorem claim_c9_witness :
    ("!!!" : String) ≠ "" ∧ ("..." : String) ≠ "" ∧
      normalize_string "!!!" = "" ∧ normalize_string "!!!" = normalize_string "..." ∧
      calculate_name_similarity "!!!" "..." = 1 :=
  ⟨by decide, by decide, by decide, by decide,
    claim_c9_normalized_equal_one "!!!" "..." (by decide) (by decide) (by decide)⟩
